import Mathlib

/-!
Shallow embedding of the wellness-scanner application.

The metrics engine is translated from `src/utils/wellnessCalculator.ts`
(the range-based variant, which the specification designates as
authoritative).  JavaScript numbers are modelled as rationals, and
`Math.round` as `jsRound` (round half towards positive infinity).
`Math.random()` draws are modelled by an explicit random source
`rnd : Nat -> Rat`, indexed by the call order inside
`calculateWellnessMetrics`; a draw is valid when it lies in `[0, 1)`.
-/

inductive Gender where
  | male
  | female
  | other
deriving DecidableEq

inductive Posture where
  | sitting
  | standing
deriving DecidableEq

structure UserDetails where
  name : String
  age : ℚ
  gender : Gender
  height : ℚ
  weight : ℚ
  posture : Posture
deriving DecidableEq

inductive BPStatus where
  | normal
  | elevated
  | high
deriving DecidableEq

inductive HRStatus where
  | low
  | normal
  | elevated
deriving DecidableEq

inductive StressStatus where
  | low
  | moderate
  | high
deriving DecidableEq

inductive BMIStatus where
  | underweight
  | normal
  | overweight
  | obese
deriving DecidableEq

inductive RespStatus where
  | low
  | normal
  | elevated
deriving DecidableEq

structure IntRange where
  min : ℤ
  max : ℤ
deriving DecidableEq

structure BloodPressureReading where
  systolic : IntRange
  diastolic : IntRange
  status : BPStatus
deriving DecidableEq

structure HeartRateReading where
  min : ℤ
  max : ℤ
  status : HRStatus
deriving DecidableEq

structure StressReading where
  value : ℤ
  status : StressStatus
deriving DecidableEq

structure OxygenReading where
  min : ℤ
  max : ℤ
deriving DecidableEq

structure BmiReading where
  value : ℚ
  status : BMIStatus
deriving DecidableEq

structure RespReading where
  min : ℤ
  max : ℤ
  status : RespStatus
deriving DecidableEq

structure WellnessMetrics where
  bloodPressure : BloodPressureReading
  heartRate : HeartRateReading
  stressLevel : StressReading
  oxygenSaturation : OxygenReading
  bmi : BmiReading
  respiratoryRate : RespReading
deriving DecidableEq

/-- JavaScript `Math.round`: round half towards positive infinity. -/
def jsRound (x : ℚ) : ℤ := ⌊x + 1/2⌋

/-- Line 4: `const bmi = user.weight / Math.pow(user.height / 100, 2)`. -/
def bmi (user : UserDetails) : ℚ := user.weight / (user.height / 100) ^ 2

/-- Line 7: posture modifier, 1.05 when standing else 1. -/
def postureModifier (user : UserDetails) : ℚ :=
  if user.posture = Posture.standing then 105/100 else 1

/-- Line 14: gender modifier, 1.02 male / 0.98 female / 1 other. -/
def genderModifier (user : UserDetails) : ℚ :=
  if user.gender = Gender.male then 102/100
  else if user.gender = Gender.female then 98/100 else 1

/-- Line 17: `randomVariance = () => (Math.random() - 0.5) * 0.08`,
applied to one draw `r` of the random source. -/
def randomVariance (r : ℚ) : ℚ := (r - 1/2) * (8/100)

/-- Line 20: base systolic value. -/
def baseSystolic (user : UserDetails) : ℚ :=
  (110 + user.age * (4/10) + (if bmi user > 25 then 8 else 0))
    * postureModifier user * genderModifier user

/-- Line 21: base diastolic value. -/
def baseDiastolic (user : UserDetails) : ℚ :=
  (70 + user.age * (25/100) + (if bmi user > 25 then 5 else 0)) * postureModifier user

/-- Line 23; consumes draw 0 of the random source. -/
def systolicMin (user : UserDetails) (rnd : ℕ → ℚ) : ℤ :=
  jsRound (baseSystolic user * (95/100 + randomVariance (rnd 0)))

/-- Line 24; consumes draw 1. -/
def systolicMax (user : UserDetails) (rnd : ℕ → ℚ) : ℤ :=
  jsRound (baseSystolic user * (106/100 + randomVariance (rnd 1)))

/-- Line 25; consumes draw 2. -/
def diastolicMin (user : UserDetails) (rnd : ℕ → ℚ) : ℤ :=
  jsRound (baseDiastolic user * (95/100 + randomVariance (rnd 2)))

/-- Line 26; consumes draw 3. -/
def diastolicMax (user : UserDetails) (rnd : ℕ → ℚ) : ℤ :=
  jsRound (baseDiastolic user * (106/100 + randomVariance (rnd 3)))

/-- Lines 28-30: blood-pressure status classification. -/
def bpStatus (user : UserDetails) (rnd : ℕ → ℚ) : BPStatus :=
  if systolicMax user rnd > 140 ∨ diastolicMax user rnd > 90 then BPStatus.high
  else if systolicMax user rnd > 130 ∨ diastolicMax user rnd > 85 then BPStatus.elevated
  else BPStatus.normal

/-- Line 33: base heart rate. -/
def baseHeartRate (user : UserDetails) : ℚ :=
  (72 + (if user.posture = Posture.standing then 5 else 0)
      - (if user.age > 40 then 3 else 0)
      + (if bmi user > 25 then 6 else 0)) * genderModifier user

/-- Line 34; consumes draw 4. -/
def heartRateMin (user : UserDetails) (rnd : ℕ → ℚ) : ℤ :=
  jsRound (baseHeartRate user * (88/100 + randomVariance (rnd 4)))

/-- Line 35; consumes draw 5. -/
def heartRateMax (user : UserDetails) (rnd : ℕ → ℚ) : ℤ :=
  jsRound (baseHeartRate user * (112/100 + randomVariance (rnd 5)))

/-- Lines 37-39: heart-rate status classification. -/
def hrStatus (user : UserDetails) (rnd : ℕ → ℚ) : HRStatus :=
  if heartRateMax user rnd > 100 then HRStatus.elevated
  else if heartRateMin user rnd < 60 then HRStatus.low
  else HRStatus.normal

/-- Line 42: base stress level. -/
def baseStress (user : UserDetails) : ℚ :=
  25 + (if user.age > 35 then 12 else 0) + (if bmi user > 28 then 8 else 0)
     + (if user.posture = Posture.standing then 5 else 0)

/-- Line 43's perturbation term `Math.random() * 15 - 7`, applied to one
draw `r` of the random source. -/
def stressPerturbation (r : ℚ) : ℚ := r * 15 - 7

/-- Line 43; consumes draw 6 (a direct `Math.random()` call). -/
def stressValue (user : UserDetails) (rnd : ℕ → ℚ) : ℤ :=
  min 100 (max 0 (jsRound (baseStress user + stressPerturbation (rnd 6))))

/-- Lines 45-47: stress status classification. -/
def stressStatus (user : UserDetails) (rnd : ℕ → ℚ) : StressStatus :=
  if stressValue user rnd > 60 then StressStatus.high
  else if stressValue user rnd > 35 then StressStatus.moderate
  else StressStatus.low

/-- Line 50: `o2Min = 96 + Math.round(Math.random() * 2)`; consumes draw 7. -/
def o2Min (rnd : ℕ → ℚ) : ℤ := 96 + jsRound (rnd 7 * 2)

/-- Line 51: `o2Max = Math.min(100, o2Min + 2)`. -/
def o2Max (rnd : ℕ → ℚ) : ℤ := min 100 (o2Min rnd + 2)

/-- Lines 54-57: BMI status classification, as a function of the bmi value. -/
def bmiStatusOf (b : ℚ) : BMIStatus :=
  if b < 185/10 then BMIStatus.underweight
  else if 25 ≤ b ∧ b < 30 then BMIStatus.overweight
  else if 30 ≤ b then BMIStatus.obese
  else BMIStatus.normal

/-- Lines 54-57 applied to the user's bmi. -/
def bmiStatus (user : UserDetails) : BMIStatus := bmiStatusOf (bmi user)

/-- Line 60: base respiratory rate. -/
def baseRespRate (user : UserDetails) : ℚ :=
  14 + (if user.age > 50 then 2 else 0) + (if bmi user > 30 then 2 else 0)
     + (if user.posture = Posture.standing then 1 else 0)

/-- Line 61; consumes draw 8. -/
def respRateMin (user : UserDetails) (rnd : ℕ → ℚ) : ℤ :=
  jsRound (baseRespRate user * (90/100 + randomVariance (rnd 8)))

/-- Line 62; consumes draw 9. -/
def respRateMax (user : UserDetails) (rnd : ℕ → ℚ) : ℤ :=
  jsRound (baseRespRate user * (115/100 + randomVariance (rnd 9)))

/-- Lines 64-66: respiratory status classification. -/
def respStatus (user : UserDetails) (rnd : ℕ → ℚ) : RespStatus :=
  if respRateMax user rnd > 20 then RespStatus.elevated
  else if respRateMin user rnd < 12 then RespStatus.low
  else RespStatus.normal

/-- Lines 68-96: the assembled result of `calculateWellnessMetrics`. -/
def calculateWellnessMetrics (user : UserDetails) (rnd : ℕ → ℚ) : WellnessMetrics where
  bloodPressure :=
    { systolic := { min := systolicMin user rnd, max := systolicMax user rnd }
      diastolic := { min := diastolicMin user rnd, max := diastolicMax user rnd }
      status := bpStatus user rnd }
  heartRate :=
    { min := heartRateMin user rnd, max := heartRateMax user rnd
      status := hrStatus user rnd }
  stressLevel := { value := stressValue user rnd, status := stressStatus user rnd }
  oxygenSaturation := { min := o2Min rnd, max := o2Max rnd }
  bmi := { value := (jsRound (bmi user * 10) : ℚ) / 10, status := bmiStatus user }
  respiratoryRate :=
    { min := respRateMin user rnd, max := respRateMax user rnd
      status := respStatus user rnd }

/-- The user fixed by the specification's worked example. -/
def specUser : UserDetails :=
  { name := "Alex", age := 30, gender := Gender.male, height := 170, weight := 70
    posture := Posture.sitting }

/-- The random source with every draw 1/2, which makes every
`randomVariance` term evaluate to zero. -/
def rHalf : ℕ → ℚ := fun _ => 1/2

/-- With variance disabled, the worked-example user's systolic maximum
rounds to 132. -/
lemma systolicMax_specUser : systolicMax specUser rHalf = 132 := by
  simp only [systolicMax, jsRound, baseSystolic, bmi, postureModifier, genderModifier,
    randomVariance, rHalf, specUser]
  simp
  norm_num

/-- With variance disabled, the worked-example user's diastolic maximum
rounds to 82. -/
lemma diastolicMax_specUser : diastolicMax specUser rHalf = 82 := by
  simp only [diastolicMax, jsRound, baseDiastolic, bmi, postureModifier,
    randomVariance, rHalf, specUser]
  simp
  norm_num

/-- With variance disabled, the worked-example user's blood-pressure
status is elevated, because 132 exceeds the elevated threshold 130. -/
lemma bpStatus_specUser : bpStatus specUser rHalf = BPStatus.elevated := by
  rw [bpStatus, systolicMax_specUser, diastolicMax_specUser]
  norm_num

/-- The worked-example user's reported bmi value is 24.2. -/
lemma bmiValue_specUser : (calculateWellnessMetrics specUser rHalf).bmi.value = 121/5 := by
  simp only [calculateWellnessMetrics, jsRound, bmi, specUser]
  norm_num

/-- The worked-example user's bmi status is normal. -/
lemma bmiStatus_specUser : (calculateWellnessMetrics specUser rHalf).bmi.status
    = BMIStatus.normal := by
  show bmiStatus specUser = BMIStatus.normal
  rw [bmiStatus, bmiStatusOf]
  norm_num [bmi, specUser]

/-!
Scan-session controller, translated from the `FaceScanner` component
(the ref-based variant in the source, which the specification designates
as authoritative; section references below use its line numbers).  The
three `setInterval` timers become events acting on an explicit session
state; the random draws feeding `simulateFaceDetection` are passed as
explicit arguments.
-/

inductive ImageQuality where
  | poor
  | fair
  | good
deriving DecidableEq

structure FaceDetectionStatus where
  faceDetected : Bool
  faceInFrame : Bool
  imageQuality : ImageQuality
  message : String
deriving DecidableEq

namespace VALIDATION_MESSAGES

def noFace : String := "No face detected. Please position your face in the frame."

def tooFar : String := "Please move a little bit closer to the screen."

def tooClose : String := "You are too close. Please move back slightly."

def notCentered : String := "Please center your face in the frame."

def poorLight : String := "Poor lighting detected. Please ensure bright, consistent lighting."

def moving : String := "Please keep still and avoid movements."

def lookStraight : String := "Please look straight at the camera."

def ready : String := "Face detected. Hold steady."

def duringScan : String := "Scanning in progress. Please remain still."

end VALIDATION_MESSAGES

/-- The analysis produced for a frame below the poor-light threshold. -/
def poorLightResult : FaceDetectionStatus :=
  { faceDetected := false, faceInFrame := false, imageQuality := ImageQuality.poor
    message := VALIDATION_MESSAGES.poorLight }

/-- Analyzer of the authoritative scanner variant: brightness and motion
gates, then a stochastic branch.  `scanningNow` is the `scanningRef`
value; `r` is the main `Math.random()` draw and `rIssue` the draw used
to pick a positioning-issue message. -/
def simulateFaceDetection (brightness motionLevel : ℚ) (scanningNow : Bool)
    (r rIssue : ℚ) : FaceDetectionStatus :=
  if brightness < 40 then poorLightResult
  else if motionLevel > 15 then
    { faceDetected := true, faceInFrame := false, imageQuality := ImageQuality.fair
      message := VALIDATION_MESSAGES.moving }
  else if r > 10/100 then
    { faceDetected := true, faceInFrame := true
      imageQuality := if brightness > 80 then ImageQuality.good else ImageQuality.fair
      message := if scanningNow then VALIDATION_MESSAGES.duringScan
                 else VALIDATION_MESSAGES.ready }
  else
    { faceDetected := true, faceInFrame := false, imageQuality := ImageQuality.fair
      message :=
        [VALIDATION_MESSAGES.tooFar, VALIDATION_MESSAGES.notCentered,
          VALIDATION_MESSAGES.lookStraight].getD (⌊rIssue * 3⌋).toNat
          VALIDATION_MESSAGES.lookStraight }

/-- Analyzer of the older scanner variant (threshold 50, no motion gate,
85% success probability). -/
def simulateFaceDetectionV1 (brightness : ℚ) (r rIssue : ℚ) : FaceDetectionStatus :=
  if brightness < 50 then poorLightResult
  else if r > 15/100 then
    { faceDetected := true, faceInFrame := true
      imageQuality := if brightness > 100 then ImageQuality.good else ImageQuality.fair
      message := VALIDATION_MESSAGES.ready }
  else
    { faceDetected := true, faceInFrame := false, imageQuality := ImageQuality.fair
      message :=
        [VALIDATION_MESSAGES.tooFar, VALIDATION_MESSAGES.notCentered,
          VALIDATION_MESSAGES.lookStraight].getD (⌊rIssue * 3⌋).toNat
          VALIDATION_MESSAGES.lookStraight }

/-- Line 111: `SCAN_DURATION = 35000` milliseconds. -/
def SCAN_DURATION : ℚ := 35000

/-- Line 335: `progressPerTick = 100 / (SCAN_DURATION / 100)`. -/
def progressPerTick : ℚ := 100 / (SCAN_DURATION / 100)

/-- Session state: the component state plus the refs that the interval
handlers read and write.  `scanIntervalActive` records whether the
progress interval is installed; `completeCount` counts the
`onScanComplete` invocations that have been triggered. -/
structure ScanState where
  faceStatus : FaceDetectionStatus
  scanning : Bool
  progress : ℚ
  scanPaused : Bool
  currentTip : ℕ
  error : Option String
  scanIntervalActive : Bool
  completeCount : ℕ
deriving DecidableEq

/-- Line 324: the error surfaced when `startScan` is rejected. -/
def startScanError : String :=
  "Please position your face properly in the frame before starting the scan."

/-- Lines 322-354: `startScan`.  Rejected with an error when the latest
analysis does not show a usable face; otherwise arms the progress
interval and resets the session fields. -/
def startScan (s : ScanState) : ScanState :=
  if !s.faceStatus.faceDetected || !s.faceStatus.faceInFrame then
    { s with error := some startScanError }
  else
    { s with scanning := true, progress := 0, scanPaused := false, currentTip := 0
             scanIntervalActive := true }

/-- Lines 337-353: one firing of the progress interval.  A paused tick
leaves the state unchanged; an unpaused tick adds `progressPerTick`, and
when the result reaches 100 it clears the interval and triggers the
completion callback. -/
def scanTick (s : ScanState) : ScanState :=
  if !s.scanIntervalActive then s
  else if s.scanPaused then s
  else if s.progress + progressPerTick ≥ 100 then
    { s with progress := s.progress + progressPerTick, scanIntervalActive := false
             completeCount := s.completeCount + 1 }
  else { s with progress := s.progress + progressPerTick }

/-- Lines 221-246: one firing of the analysis interval with analysis
result `d`: publish `d` and recompute the pause flag. -/
def analysisTick (s : ScanState) (d : FaceDetectionStatus) : ScanState :=
  { s with faceStatus := d
           scanPaused := !d.faceDetected || !d.faceInFrame
             || decide (d.imageQuality = ImageQuality.poor) }

/-- Lines 356-359: `handleCancel` runs `cleanup`, clearing the intervals. -/
def handleCancel (s : ScanState) : ScanState :=
  { s with scanIntervalActive := false }

/-- The events that can act on a session after it exists. -/
inductive ScanEvent where
  | start
  | tick
  | analysis (d : FaceDetectionStatus)
  | cancel
deriving DecidableEq

/-- One event step of the session. -/
def stepEv (s : ScanState) : ScanEvent → ScanState
  | ScanEvent.start => startScan s
  | ScanEvent.tick => scanTick s
  | ScanEvent.analysis d => analysisTick s d
  | ScanEvent.cancel => handleCancel s

/-- A whole event trace. -/
def runEvents (s : ScanState) (l : List ScanEvent) : ScanState := l.foldl stepEv s

/-!
Specification-side definitions (for refinement claims about the
blood-pressure classification) and concrete inputs used by witnesses.
-/

/-- Modelled from the spec: the systolic classification
`max>140 -> high; max>130 -> elevated; else normal`. -/
def systolicClass (m : ℤ) : BPStatus :=
  if m > 140 then BPStatus.high else if m > 130 then BPStatus.elevated else BPStatus.normal

/-- Modelled from the spec: the diastolic classification
`max>90 -> high; max>85 -> elevated; else normal`. -/
def diastolicClass (m : ℤ) : BPStatus :=
  if m > 90 then BPStatus.high else if m > 85 then BPStatus.elevated else BPStatus.normal

/-- Severity order `high > elevated > normal` of the spec. -/
def severityRank : BPStatus → ℕ
  | BPStatus.normal => 0
  | BPStatus.elevated => 1
  | BPStatus.high => 2

/-- The more severe of two blood-pressure statuses. -/
def moreSevere (a b : BPStatus) : BPStatus :=
  if severityRank a < severityRank b then b else a

/-- A second user, differing from `specUser` in every field except
height and weight. -/
def otherUser : UserDetails :=
  { name := "Bo", age := 60, gender := Gender.female, height := 170, weight := 70
    posture := Posture.standing }

/-- The random source with every draw 0. -/
def rZero : ℕ → ℚ := fun _ => 0

/-- Claim C5: for every user and every draw of the random source, the
overall blood-pressure status equals the more severe of the systolic
classification and the diastolic classification. -/
theorem bpStatus_more_severe (user : UserDetails) (rnd : ℕ → ℚ) :
    bpStatus user rnd
      = moreSevere (systolicClass (systolicMax user rnd))
          (diastolicClass (diastolicMax user rnd)) := by
  unfold bpStatus moreSevere systolicClass diastolicClass
  split_ifs <;> simp_all [severityRank]

/-- Claim C6: the BMI status classification is underweight iff bmi<18.5,
overweight iff 25<=bmi<30, obese iff bmi>=30, normal otherwise; in
particular the six boundary cases 18.4, 18.5, 24.9, 25.0, 29.9, 30.0
classify as underweight, normal, normal, overweight, overweight, obese;
and the metrics record carries exactly this classification of the
computed bmi. -/
theorem bmiStatus_boundaries :
    (∀ b : ℚ,
      (bmiStatusOf b = BMIStatus.underweight ↔ b < 185/10)
      ∧ (bmiStatusOf b = BMIStatus.overweight ↔ 25 ≤ b ∧ b < 30)
      ∧ (bmiStatusOf b = BMIStatus.obese ↔ 30 ≤ b)
      ∧ (bmiStatusOf b = BMIStatus.normal ↔ 185/10 ≤ b ∧ b < 25))
    ∧ bmiStatusOf (184/10) = BMIStatus.underweight
    ∧ bmiStatusOf (185/10) = BMIStatus.normal
    ∧ bmiStatusOf (249/10) = BMIStatus.normal
    ∧ bmiStatusOf 25 = BMIStatus.overweight
    ∧ bmiStatusOf (299/10) = BMIStatus.overweight
    ∧ bmiStatusOf 30 = BMIStatus.obese
    ∧ ∀ (user : UserDetails) (rnd : ℕ → ℚ),
        (calculateWellnessMetrics user rnd).bmi.status = bmiStatusOf (bmi user) := by
  refine ⟨fun b => ?_, ?_, ?_, ?_, ?_, ?_, ?_, fun user rnd => rfl⟩
  · unfold bmiStatusOf
    split_ifs <;> simp_all <;>
      first
        | linarith
        | (constructor <;> first | linarith | (intro h; linarith))
  all_goals norm_num [bmiStatusOf]

/-- Claim C9: the bmi field of the returned metrics depends only on the
user's height and weight, never on the other fields or on the random
draws. -/
theorem bmi_only_height_weight (u1 u2 : UserDetails) (r1 r2 : ℕ → ℚ)
    (hh : u1.height = u2.height) (hw : u1.weight = u2.weight) :
    (calculateWellnessMetrics u1 r1).bmi = (calculateWellnessMetrics u2 r2).bmi := by
  have hb : bmi u1 = bmi u2 := by unfold bmi; rw [hh, hw]
  simp [calculateWellnessMetrics, bmiStatus, hb]

/-- Witness for C9 at two users differing in name, age, gender, posture
and at two different random sources. -/
theorem bmi_only_height_weight_witness :
    (calculateWellnessMetrics specUser rHalf).bmi
      = (calculateWellnessMetrics otherUser rZero).bmi :=
  bmi_only_height_weight specUser otherUser rHalf rZero rfl rfl

/-- Claim C10: for every valid random draw the oxygen-saturation range
has min in 96..98, max exactly min + 2, max at most 100, and the
min(100, min+2) clamp never reduces the upper value. -/
theorem oxygen_range_spec (rnd : ℕ → ℚ) (h0 : 0 ≤ rnd 7) (h1 : rnd 7 < 1) :
    (o2Min rnd = 96 ∨ o2Min rnd = 97 ∨ o2Min rnd = 98)
    ∧ o2Max rnd = o2Min rnd + 2
    ∧ o2Max rnd ≤ 100
    ∧ min 100 (o2Min rnd + 2) = o2Min rnd + 2 := by
  have hk0 : (0:ℤ) ≤ jsRound (rnd 7 * 2) := by
    rw [jsRound]
    exact Int.floor_nonneg.mpr (by linarith)
  have hk2 : jsRound (rnd 7 * 2) < 3 := by
    rw [jsRound]
    refine Int.floor_lt.mpr ?_
    push_cast
    linarith
  have hle : o2Min rnd + 2 ≤ 100 := by rw [o2Min]; omega
  refine ⟨?_, ?_, ?_, ?_⟩
  · rw [o2Min]; omega
  · rw [o2Max, min_eq_right hle]
  · rw [o2Max, min_eq_right hle]; exact hle
  · rw [min_eq_right hle]

/-- Witness for C10 at the all-zero random source. -/
theorem oxygen_range_spec_witness :
    (o2Min rZero = 96 ∨ o2Min rZero = 97 ∨ o2Min rZero = 98)
    ∧ o2Max rZero = o2Min rZero + 2
    ∧ o2Max rZero ≤ 100
    ∧ min 100 (o2Min rZero + 2) = o2Min rZero + 2 :=
  oxygen_range_spec rZero (le_refl 0) zero_lt_one

/-- Claim C4: in both analyzer variants, a frame whose brightness is
below the poor-light threshold yields imageQuality poor, faceDetected
false and the poor-light message, regardless of the motion level, the
scanning flag and the random draws. -/
theorem poorLight_overrides_all :
    (∀ (b m : ℚ) (sc : Bool) (r ri : ℚ), b < 40 →
        simulateFaceDetection b m sc r ri = poorLightResult)
    ∧ (∀ b r ri : ℚ, b < 50 →
        simulateFaceDetectionV1 b r ri = poorLightResult) := by
  constructor
  · intro b m sc r ri hb
    unfold simulateFaceDetection
    rw [if_pos hb]
  · intro b r ri hb
    unfold simulateFaceDetectionV1
    rw [if_pos hb]

/-- Witness for C4 at brightness 0 with arbitrary motion and draws. -/
theorem poorLight_overrides_all_witness :
    simulateFaceDetection 0 20 true (1/2) (1/2) = poorLightResult
    ∧ simulateFaceDetectionV1 0 (1/2) (1/2) = poorLightResult :=
  ⟨poorLight_overrides_all.1 0 20 true (1/2) (1/2) (by simp),
   poorLight_overrides_all.2 0 (1/2) (1/2) (by simp)⟩

/-- Counterexample to claim C7: the draw 0.99 is a valid value of the
random source, and the perturbation the code adds to the stress base for
that draw is 7.85, which exceeds the claimed bound 7.5 in absolute
value. -/
theorem stressPerturbation_exceeds_bound :
    (0 ≤ (99/100 : ℚ) ∧ (99/100 : ℚ) < 1)
    ∧ ¬ |stressPerturbation (99/100)| ≤ 15/2 := by
  have h : stressPerturbation (99/100) = 157/20 := by norm_num [stressPerturbation]
  refine ⟨⟨by norm_num, by norm_num⟩, ?_⟩
  rw [h, abs_of_pos (by norm_num)]
  norm_num

/-- Claim C7 as amended: for every user and valid draw, the stress value
is round(base + d) clamped to [0,100] where the perturbation d satisfies
-7 <= d < 8 (not |d| <= 7.5); the value lies in [0,100]; and the status
is high iff value>60, moderate iff 35<value<=60, else low. -/
theorem stressValue_spec (user : UserDetails) (rnd : ℕ → ℚ)
    (h0 : 0 ≤ rnd 6) (h1 : rnd 6 < 1) :
    stressValue user rnd
        = min 100 (max 0 (jsRound (baseStress user + stressPerturbation (rnd 6))))
    ∧ (-7 : ℚ) ≤ stressPerturbation (rnd 6)
    ∧ stressPerturbation (rnd 6) < 8
    ∧ 0 ≤ stressValue user rnd
    ∧ stressValue user rnd ≤ 100
    ∧ (stressStatus user rnd = StressStatus.high ↔ 60 < stressValue user rnd)
    ∧ (stressStatus user rnd = StressStatus.moderate
        ↔ 35 < stressValue user rnd ∧ stressValue user rnd ≤ 60)
    ∧ (stressStatus user rnd = StressStatus.low ↔ stressValue user rnd ≤ 35) := by
  refine ⟨rfl, ?_, ?_, ?_, ?_, ?_, ?_, ?_⟩
  · rw [stressPerturbation]; linarith
  · rw [stressPerturbation]; linarith
  · rw [stressValue]
    exact le_min (by norm_num) (le_max_left 0 _)
  · rw [stressValue]
    exact min_le_left 100 _
  · unfold stressStatus
    split_ifs <;> simp_all
  · unfold stressStatus
    split_ifs <;> simp_all
  · unfold stressStatus
    split_ifs <;> simp_all
    omega

/-- Witness for the amended C7 at the spec's worked-example user and the
all-zero random source. -/
theorem stressValue_spec_witness :
    stressValue specUser rZero
        = min 100 (max 0 (jsRound (baseStress specUser + stressPerturbation (rZero 6))))
    ∧ (-7 : ℚ) ≤ stressPerturbation (rZero 6)
    ∧ stressPerturbation (rZero 6) < 8
    ∧ 0 ≤ stressValue specUser rZero
    ∧ stressValue specUser rZero ≤ 100
    ∧ (stressStatus specUser rZero = StressStatus.high ↔ 60 < stressValue specUser rZero)
    ∧ (stressStatus specUser rZero = StressStatus.moderate
        ↔ 35 < stressValue specUser rZero ∧ stressValue specUser rZero ≤ 60)
    ∧ (stressStatus specUser rZero = StressStatus.low ↔ stressValue specUser rZero ≤ 35) :=
  stressValue_spec specUser rZero (le_refl 0) zero_lt_one

/-- Counterexample to claim C8: for the worked-example user with all
variance draws zero, the blood-pressure classification is not normal
(the systolic maximum rounds to 132, above the elevated threshold). -/
theorem bp_specUser_not_normal :
    (calculateWellnessMetrics specUser rHalf).bloodPressure.status ≠ BPStatus.normal := by
  show bpStatus specUser rHalf ≠ BPStatus.normal
  rw [bpStatus_specUser]
  simp

/-- Claim C8 as amended: for the user age 30, height 170, weight 70,
male, sitting, with every variance draw zero, the computed bmi is 24.2
and classifies as normal, the systolic maximum is 132 and stays below
140, and the blood-pressure classification is elevated (not normal). -/
theorem specUser_metrics (rnd : ℕ → ℚ) (hv : ∀ i, randomVariance (rnd i) = 0) :
    (calculateWellnessMetrics specUser rnd).bmi.value = 121/5
    ∧ (calculateWellnessMetrics specUser rnd).bmi.status = BMIStatus.normal
    ∧ systolicMax specUser rnd = 132
    ∧ systolicMax specUser rnd < 140
    ∧ (calculateWellnessMetrics specUser rnd).bloodPressure.status = BPStatus.elevated := by
  have hr : rnd = rHalf := by
    funext i
    have h := hv i
    rw [randomVariance] at h
    rcases mul_eq_zero.mp h with h1 | h2
    · show rnd i = 1/2
      have := sub_eq_zero.mp h1
      exact this
    · exfalso
      norm_num at h2
  subst hr
  exact ⟨bmiValue_specUser, bmiStatus_specUser, systolicMax_specUser,
    by rw [systolicMax_specUser]; norm_num, bpStatus_specUser⟩

/-- Witness for the amended C8 at the all-one-half random source. -/
theorem specUser_metrics_witness :
    (calculateWellnessMetrics specUser rHalf).bmi.value = 121/5
    ∧ (calculateWellnessMetrics specUser rHalf).bmi.status = BMIStatus.normal
    ∧ systolicMax specUser rHalf = 132
    ∧ systolicMax specUser rHalf < 140
    ∧ (calculateWellnessMetrics specUser rHalf).bloodPressure.status = BPStatus.elevated :=
  specUser_metrics rHalf fun i => by simp [randomVariance, rHalf]

/-!
Properties of the scan-session controller.
-/

/-- With a 35-second scan and 100 ms ticks, each tick advances progress
by 2/7 of a percent. -/
lemma progressPerTick_eq : progressPerTick = 2/7 := by
  norm_num [progressPerTick, SCAN_DURATION]

/-- The per-tick increment is nonnegative. -/
lemma progressPerTick_nonneg : (0:ℚ) ≤ progressPerTick := by
  rw [progressPerTick_eq]; norm_num

/-- No event other than a scan start can decrease progress. -/
lemma stepEv_progress_mono (s : ScanState) (e : ScanEvent) (he : e ≠ ScanEvent.start) :
    s.progress ≤ (stepEv s e).progress := by
  cases e with
  | start => exact absurd rfl he
  | tick =>
    show s.progress ≤ (scanTick s).progress
    unfold scanTick
    have hp := progressPerTick_nonneg
    split_ifs <;> simp <;> try linarith
  | analysis d => exact le_refl _
  | cancel => exact le_refl _

/-- Progress is monotone along every trace that contains no scan start. -/
lemma runEvents_progress_mono (l : List ScanEvent) :
    ∀ s : ScanState, ScanEvent.start ∉ l → s.progress ≤ (runEvents s l).progress := by
  induction l with
  | nil => intro s _; exact le_refl _
  | cons e t ih =>
    intro s h
    have he : e ≠ ScanEvent.start := fun hc => h (hc ▸ List.mem_cons_self e t)
    have ht : ScanEvent.start ∉ t := fun hc => h (List.mem_cons_of_mem e hc)
    exact le_trans (stepEv_progress_mono s e he) (ih (stepEv s e) ht)

/-- Claim C1: a progress tick leaves progress unchanged when the pause
flag is set, otherwise (with the interval armed) adds exactly the fixed
per-tick increment 100 / (scan duration / tick interval); consequently
progress is non-decreasing along every trace of the session. -/
theorem scan_progress_tick (s : ScanState) :
    (s.scanPaused = true → (scanTick s).progress = s.progress)
    ∧ (s.scanPaused = false → s.scanIntervalActive = true →
        (scanTick s).progress = s.progress + progressPerTick)
    ∧ ∀ l : List ScanEvent, ScanEvent.start ∉ l →
        s.progress ≤ (runEvents s l).progress := by
  refine ⟨fun hp => ?_, fun hp ha => ?_, fun l hl => runEvents_progress_mono l s hl⟩
  · unfold scanTick
    split_ifs <;> simp_all
  · unfold scanTick
    rw [ha, hp]
    simp only [Bool.not_true, Bool.false_eq_true, if_false]
    split_ifs <;> rfl

/-- Session invariant relative to the completion count `c0` at scan
start: either the completion callback has not fired, and while the
progress interval is armed progress is a multiple k * (2/7) with
k < 350 (hence below 100); or it has fired exactly once, progress is
exactly 100 and the interval is cleared. -/
def SessionInv (c0 : ℕ) (s : ScanState) : Prop :=
  (s.completeCount = c0 ∧ (s.scanIntervalActive = true →
      ∃ k : ℕ, k < 350 ∧ s.progress = k * progressPerTick))
  ∨ (s.completeCount = c0 + 1 ∧ s.progress = 100 ∧ s.scanIntervalActive = false)

/-- Every event except a scan start preserves the session invariant. -/
lemma sessionInv_step (c0 : ℕ) (s : ScanState) (e : ScanEvent)
    (he : e ≠ ScanEvent.start) (h : SessionInv c0 s) : SessionInv c0 (stepEv s e) := by
  cases e with
  | start => exact absurd rfl he
  | analysis d =>
    rcases h with ⟨h1, h2⟩ | h2
    · exact Or.inl ⟨h1, h2⟩
    · exact Or.inr h2
  | cancel =>
    rcases h with ⟨h1, h2⟩ | ⟨h1, h2, _⟩
    · exact Or.inl ⟨h1, fun hact => absurd hact (by simp [stepEv, handleCancel])⟩
    · exact Or.inr ⟨h1, h2, rfl⟩
  | tick =>
    show SessionInv c0 (scanTick s)
    unfold scanTick
    rcases h with ⟨h1, h2⟩ | ⟨h1, h2, h3⟩
    · by_cases hact : s.scanIntervalActive = true
      · obtain ⟨k, hk, hprog⟩ := h2 hact
        rw [if_neg (by simp [hact])]
        by_cases hpause : s.scanPaused = true
        · rw [if_pos hpause]
          exact Or.inl ⟨h1, h2⟩
        · rw [if_neg hpause]
          have hppt := progressPerTick_eq
          by_cases hge : s.progress + progressPerTick ≥ 100
          · rw [if_pos hge]
            refine Or.inr ⟨by simp [h1], ?_, rfl⟩
            show s.progress + progressPerTick = 100
            rw [hprog, hppt] at hge ⊢
            have h350 : (350:ℚ) ≤ (k:ℚ) + 1 := by linarith
            have hk350 : 350 ≤ k + 1 := by exact_mod_cast h350
            have hkeq : k = 349 := by omega
            subst hkeq
            norm_num
          · rw [if_neg hge]
            refine Or.inl ⟨h1, fun _ => ⟨k + 1, ?_, ?_⟩⟩
            · rw [hprog, hppt] at hge
              have : ((k:ℚ) + 1) < 350 := by
                by_contra hcon
                push_neg at hcon
                exact hge (by linarith)
              have : k + 1 < 350 := by exact_mod_cast this
              exact this
            · show s.progress + progressPerTick = ((k + 1 : ℕ) : ℚ) * progressPerTick
              push_cast
              rw [hprog]
              ring
      · rw [if_pos (by simp [Bool.not_eq_true] at hact ⊢; exact hact)]
        exact Or.inl ⟨h1, h2⟩
    · rw [if_pos (by simp [h3])]
      exact Or.inr ⟨h1, h2, h3⟩

/-- The session invariant is preserved along every trace without a scan
start. -/
lemma sessionInv_run (c0 : ℕ) (l : List ScanEvent) :
    ∀ s : ScanState, ScanEvent.start ∉ l → SessionInv c0 s →
      SessionInv c0 (runEvents s l) := by
  induction l with
  | nil => intro s _ h; exact h
  | cons e t ih =>
    intro s hl h
    have he : e ≠ ScanEvent.start := fun hc => hl (hc ▸ List.mem_cons_self e t)
    have ht : ScanEvent.start ∉ t := fun hc => hl (List.mem_cons_of_mem e hc)
    exact ih (stepEv s e) ht (sessionInv_step c0 s e he h)

/-- Claim C2: after a successfully accepted scan start, along every
trace of ticks, analyses and cancels, the completion callback fires at
most once, and whenever it has fired the progress stands at exactly
100. -/
theorem scan_complete_once (s : ScanState) (l : List ScanEvent)
    (hd : s.faceStatus.faceDetected = true) (hf : s.faceStatus.faceInFrame = true)
    (hl : ScanEvent.start ∉ l) :
    (runEvents (startScan s) l).completeCount ≤ s.completeCount + 1
    ∧ ((runEvents (startScan s) l).completeCount ≠ s.completeCount →
        (runEvents (startScan s) l).progress = 100) := by
  have hinit : SessionInv s.completeCount (startScan s) := by
    unfold startScan
    rw [if_neg (by simp [hd, hf])]
    refine Or.inl ⟨rfl, fun _ => ⟨0, by norm_num, by norm_num⟩⟩
  have hfin := sessionInv_run s.completeCount l (startScan s) hl hinit
  rcases hfin with ⟨h1, _⟩ | ⟨h1, h2, _⟩
  · exact ⟨by omega, fun hne => absurd h1 hne⟩
  · exact ⟨by omega, fun _ => h2⟩

/-- Claim C3: a scan-start command issued while the latest analysis does
not show the face in frame is rejected: the state is unchanged except
for the surfaced precondition error, so the session stays in its ready
configuration with scanning false and progress 0, and the progress
interval is not armed. -/
theorem startScan_precondition_failure (s : ScanState)
    (hf : s.faceStatus.faceInFrame = false)
    (hs : s.scanning = false) (hp : s.progress = 0) :
    startScan s = { s with error := some startScanError }
    ∧ (startScan s).scanning = false
    ∧ (startScan s).progress = 0
    ∧ (startScan s).scanIntervalActive = s.scanIntervalActive := by
  unfold startScan
  rw [if_pos (by simp [hf])]
  exact ⟨rfl, hs, hp, rfl⟩

/-- A good analysis result: face detected and in frame. -/
def faceGood : FaceDetectionStatus :=
  { faceDetected := true, faceInFrame := true, imageQuality := ImageQuality.good
    message := VALIDATION_MESSAGES.ready }

/-- A bad analysis result: face detected but not in frame. -/
def faceBad : FaceDetectionStatus :=
  { faceDetected := true, faceInFrame := false, imageQuality := ImageQuality.fair
    message := VALIDATION_MESSAGES.notCentered }

/-- A session in the ready configuration with a good face status. -/
def readyState : ScanState :=
  { faceStatus := faceGood, scanning := false, progress := 0, scanPaused := false
    currentTip := 0, error := none, scanIntervalActive := false, completeCount := 0 }

/-- A session in the ready configuration whose face is not in frame. -/
def blockedState : ScanState :=
  { readyState with faceStatus := faceBad }

/-- A mid-scan session whose progress is frozen by the pause flag. -/
def pausedState : ScanState :=
  { readyState with scanning := true, scanPaused := true, scanIntervalActive := true }

/-- A mid-scan session actively accruing progress. -/
def activeState : ScanState :=
  { readyState with scanning := true, scanIntervalActive := true }

/-- Witness for C1 at a paused state, an active state and a one-tick
trace. -/
theorem scan_progress_tick_witness :
    (scanTick pausedState).progress = pausedState.progress
    ∧ (scanTick activeState).progress = activeState.progress + progressPerTick
    ∧ activeState.progress ≤ (runEvents activeState [ScanEvent.tick]).progress :=
  ⟨(scan_progress_tick pausedState).1 rfl,
   (scan_progress_tick activeState).2.1 rfl rfl,
   (scan_progress_tick activeState).2.2 [ScanEvent.tick] (by simp)⟩

/-- Witness for C2: starting from the ready state and running one tick. -/
theorem scan_complete_once_witness :
    (runEvents (startScan readyState) [ScanEvent.tick]).completeCount
        ≤ readyState.completeCount + 1
    ∧ ((runEvents (startScan readyState) [ScanEvent.tick]).completeCount
          ≠ readyState.completeCount →
        (runEvents (startScan readyState) [ScanEvent.tick]).progress = 100) :=
  scan_complete_once readyState [ScanEvent.tick] rfl rfl (by simp)

/-- Witness for C3 at a ready state whose face is out of frame. -/
theorem startScan_precondition_failure_witness :
    startScan blockedState = { blockedState with error := some startScanError }
    ∧ (startScan blockedState).scanning = false
    ∧ (startScan blockedState).progress = 0
    ∧ (startScan blockedState).scanIntervalActive = blockedState.scanIntervalActive :=
  startScan_precondition_failure blockedState rfl rfl rfl
